import Mathlib

/-!
Shallow embedding of the sora2-mcp server's tool layer (src/tools/index.ts,
together with the server setup files).  Pure functions of the source are
translated into Lean functions; the filesystem and the remote HTTP service are
modelled as explicit inputs (a `RefFile` value for the resolved input file and
an `Oracle` mapping each outbound request to its response); each tool handler
returns its result envelope together with the list of requests it issued.
JavaScript machine numbers in this code are small integers (HTTP status codes,
parsed dimensions), modelled as `Nat`/`Int`.
-/

namespace SoraMcp

/-! ## JavaScript string primitives used by the handlers -/

/-- `String.prototype.split` with a single-character separator, on a char
list; `splitOnChar c cs` mirrors JS `s.split(c)`: `"" ↦ [""]`,
`"axb" ↦ ["a","b"]`, `"xx" ↦ ["","",""]`.  Structural, so it reduces in
the kernel (Lean's own `String.splitOn` does not). -/
def splitOnChar (c : Char) : List Char → List (List Char)
  | [] => [[]]
  | a :: rest =>
    let r := splitOnChar c rest
    if a = c then [] :: r
    else
      match r with
      | [] => [[a]]
      | h :: t => (a :: h) :: t

/-- JS `s.split(sep)` for a one-character separator. -/
def jsSplit (s : String) (c : Char) : List String :=
  (splitOnChar c s.data).map (fun l => String.mk l)

/-- JS `s.toLowerCase()`; agrees with JavaScript on ASCII, which is all the
extension table compares against. -/
def lowerStr (s : String) : String :=
  String.mk (s.data.map Char.toLower)

/-- Value of a list of decimal digits, most significant first. -/
def digitsToNat (ds : List Char) : Nat :=
  ds.foldl (fun a c => a * 10 + (c.toNat - 48)) 0

/-- Helper for `jsParseInt`: parse the longest leading run of decimal digits,
returning `none` (JS `NaN`) when there is none. -/
def parseIntDigits (sign : Int) (rest : List Char) : Option Int :=
  let ds := rest.takeWhile Char.isDigit
  if ds.isEmpty then none
  else some (sign * Int.ofNat (digitsToNat ds))

/-- JS `parseInt(s, 10)`: skip leading whitespace, read an optional sign, then
the longest run of decimal digits; `none` models `NaN`.  Trailing
non-digit characters are ignored (`parseInt("720a", 10) = 720`). -/
def jsParseInt (s : String) : Option Int :=
  let cs := s.data.dropWhile (fun c => c == ' ' || c == '\t' || c == '\n' || c == '\r')
  match cs with
  | '-' :: rest => parseIntDigits (-1) rest
  | '+' :: rest => parseIntDigits 1 rest
  | _ => parseIntDigits 1 cs

/-- JS `s.startsWith(t)` (source: `mimeType.startsWith('image/')`). -/
def startsWithStr (s t : String) : Bool :=
  s.data.take t.data.length == t.data

/-! ## Size resolver (source lines 174-206) -/

inductive Orientation where
  | vertical
  | landscape
deriving DecidableEq

/-- Source `ORIENTATION_SIZES` table (lines 174-177). -/
def ORIENTATION_SIZES : Orientation → String
  | .vertical => "720x1280"
  | .landscape => "1280x720"

/-- Source `getVideoSize` (lines 195-206).  `orientation` is a TS optional
enum, so any present value is truthy; `size` is a TS optional string, so
JS truthiness makes the empty string behave like an absent argument. -/
def getVideoSize (orientation : Option Orientation) (size : Option String) : String :=
  match orientation with
  | some o => ORIENTATION_SIZES o
  | none =>
    match size with
    | some s => if s ≠ "" then s else ORIENTATION_SIZES .vertical
    | none => ORIENTATION_SIZES .vertical

/-! ## MIME detection (source lines 252-260) -/

/-- The `if/else if` chain of the create-video handler assigning `mimeType`
from the extension, default `image/jpeg` (lines 253-260). -/
def mimeFromExt (ext : String) : String :=
  if ext = "png" then "image/png"
  else if ext = "webp" then "image/webp"
  else if ext = "jpg" ∨ ext = "jpeg" then "image/jpeg"
  else if ext = "mp4" then "video/mp4"
  else if ext = "mov" then "video/quicktime"
  else if ext = "webm" then "video/webm"
  else "image/jpeg"

/-- Source line 253: `filename.toLowerCase().split('.').pop()` (a JS `pop` on
the never-empty result of `split` is the last element). -/
def extOf (filename : String) : String :=
  (jsSplit (lowerStr filename) '.').getLastD ""

/-- MIME type detected for a reference filename (lines 252-260). -/
def mimeFromFilename (filename : String) : String :=
  mimeFromExt (extOf filename)

/-- Spec-side restatement of the extension table for comparison with
`mimeFromExt`: a lookup table with `image/jpeg` as the default for
extensions not in the table. -/
def mimeTable : List (String × String) :=
  [("png", "image/png"), ("webp", "image/webp"), ("jpg", "image/jpeg"),
   ("jpeg", "image/jpeg"), ("mp4", "video/mp4"), ("mov", "video/quicktime"),
   ("webm", "video/webm")]

/-- Spec-side MIME resolver: table lookup on the lowercase extension with
default `image/jpeg`. -/
def mimeSpec (filename : String) : String :=
  (mimeTable.lookup (extOf filename)).getD "image/jpeg"

/-! ## Size validation (source lines 262-273) -/

/-- The size-parsing block of the create-video handler (lines 262-273):
split on `'x'`, require exactly two parts, `parseInt` each with radix 10,
reject `NaN` and non-positive values. -/
def validateSize (finalSize : String) : Except String (Int × Int) :=
  if (jsSplit finalSize 'x').length ≠ 2 then
    Except.error ("Invalid size format: " ++ finalSize ++
      ". Expected format: \"widthxheight\" (e.g., \"720x1280\")")
  else
    match jsParseInt ((jsSplit finalSize 'x').getD 0 ""),
        jsParseInt ((jsSplit finalSize 'x').getD 1 "") with
    | some targetWidth, some targetHeight =>
      if targetWidth ≤ 0 ∨ targetHeight ≤ 0 then
        Except.error ("Invalid size dimensions: " ++ finalSize ++
          ". Width and height must be positive numbers.")
      else Except.ok (targetWidth, targetHeight)
    | _, _ =>
      Except.error ("Invalid size dimensions: " ++ finalSize ++
        ". Width and height must be positive numbers.")

/-- A string that is literally a positive decimal integer (used only to state
what a "positive integer token" of the specification is). -/
def isPosIntToken (t : String) : Bool :=
  t.data ≠ [] && t.data.all Char.isDigit && 0 < digitsToNat t.data

/-! ## The sharp image resize (source lines 278-283) -/

/-- Pixel dimensions of an image buffer. -/
structure Image where
  width : Nat
  height : Nat
deriving DecidableEq

/-- Round-to-nearest division `a / b` on naturals (half rounds up). -/
def roundHalf (a b : Nat) : Nat :=
  (2 * a + b) / (2 * b)

/-- Modelled from the spec: the dimensions produced by the `sharp` library
(an external dependency, not part of this repository) when the source
calls `.resize(targetWidth, targetHeight, fit: cover)` — scale by the
larger of the two ratios `W/w`, `H/h` so the scaled image covers the
target box. -/
def coverScaled (w h W H : Nat) : Nat × Nat :=
  if H * w ≤ W * h then (W, roundHalf (h * W) w)
  else (roundHalf (w * H) h, H)

/-- Modelled from the spec: sharp cover-fit resize with `position: center` —
scale to cover the target box, then center-crop the overflow so the
result is at most `W x H` in each dimension. -/
def sharpCoverResize (img : Image) (W H : Nat) : Image :=
  ⟨min W (coverScaled img.width img.height W H).1,
   min H (coverScaled img.width img.height W H).2⟩

/-! ## Reference-media preparation (source lines 241-298) -/

/-- The resolved, existing file behind `input_reference`: its basename, its
bytes on disk, and (when the bytes decode as an image) the decoded
dimensions `sharp` would see.  The file-not-found path of the handler
(line 247) is not modelled; no claim concerns it. -/
structure RefFile where
  name : String
  bytes : List Nat
  decoded : Option Image
deriving DecidableEq

/-- The blob appended to the outbound form: either the sharp-resized image
buffer (only its dimensions are observable in this model) or the raw file
bytes. -/
inductive Blob where
  | imageBuf (img : Image)
  | rawBuf (bytes : List Nat)
deriving DecidableEq

/-- The body of the `input_reference` processing block (lines 250-294): detect
the MIME type, validate the size string, then either sharp-resize the
image or pass video bytes through unchanged.  Returns the blob together
with its MIME type and filename as appended to the form. -/
def prepareInputReference (f : RefFile) (finalSize : String) :
    Except String (Blob × String × String) :=
  let filename := f.name
  let mimeType := mimeFromFilename filename
  match validateSize finalSize with
  | .error e => .error e
  | .ok (targetWidth, targetHeight) =>
    if startsWithStr mimeType "image/" then
      match f.decoded with
      | some img =>
        .ok (Blob.imageBuf (sharpCoverResize img targetWidth.toNat targetHeight.toNat),
             mimeType, filename)
      | none => .error "Input file contains unsupported image format"
    else
      .ok (Blob.rawBuf f.bytes, mimeType, filename)

/-! ## JSON values and result envelopes -/

/-- JSON scalar values (enough structure for the fields the handlers read and
construct).  Objects are association lists `JObj`. -/
inductive JVal where
  | str (s : String)
  | bool (b : Bool)
  | num (n : Int)
  | null
deriving DecidableEq

/-- A JSON object, read with first-match lookup. -/
abbrev JObj := List (String × JVal)

/-- JS string interpolation of a field value (template literals such as
`Current status: X`); an absent field interpolates as `undefined`. -/
def displayJVal : Option JVal → String
  | some (.str s) => s
  | some (.bool b) => if b then "true" else "false"
  | some (.num n) => toString n
  | some .null => "null"
  | none => "undefined"

/-- Rendering standing in for `JSON.stringify(output, null, 2)` in the text
blocks of success envelopes.  Simplified to a single line; no verified
property inspects the text of a success envelope. -/
def jsonStringify (o : JObj) : String :=
  "\x7b" ++ String.intercalate ", "
    (o.map (fun p => "\"" ++ p.1 ++ "\": " ++ displayJVal (some p.2))) ++ "\x7d"

/-- A JS object literal whose named fields are followed by a spread
(`... id, deleted, message, ...data`): the spread's fields override the
named ones, so under first-match lookup `data` is placed first. -/
def spreadAfter (base data : JObj) : JObj :=
  data ++ base

/-- The uniform result shape of every tool handler: a text block, the
structured content (empty on error), and the error flag. -/
structure ResultEnvelope where
  text : String
  structured : JObj
  isError : Bool
deriving DecidableEq

/-! ## The remote HTTP service -/

/-- One outbound HTTP request: method, URL, form/body fields, and the
optional blob appended as `input_reference` (blob, MIME type, filename). -/
structure Request where
  method : String
  url : String
  auth : String
  form : List (String × String)
  inputBlob : Option (Blob × String × String)
deriving DecidableEq

/-- One HTTP response: status code, body text (as read by `response.text()`)
and the parsed JSON object (as read by `response.json()`). -/
structure HttpResponse where
  status : Nat
  body : String
  json : JObj

/-- `Response.ok` of the fetch API: status in the range 200-299. -/
def responseOk (r : HttpResponse) : Bool :=
  200 ≤ r.status && r.status ≤ 299

/-- The remote service as an oracle from requests to responses. -/
def Oracle := Request → HttpResponse

def SORA_API_BASE : String := "https://api.openai.com/v1"

/-- `POST /videos` of the create handler (line 301). -/
def videosCreateRequest (apiKey : String) (form : List (String × String))
    (blob : Option (Blob × String × String)) : Request :=
  ⟨"POST", SORA_API_BASE ++ "/videos", apiKey, form, blob⟩

/-- `POST /videos/:id/remix` (line 354); the JSON body is carried in `form`. -/
def remixRequest (apiKey id prompt : String) : Request :=
  ⟨"POST", SORA_API_BASE ++ "/videos/" ++ id ++ "/remix", apiKey, [("prompt", prompt)], none⟩

/-- `GET /videos/:id` (lines 407, 518, 605). -/
def statusRequest (apiKey id : String) : Request :=
  ⟨"GET", SORA_API_BASE ++ "/videos/" ++ id, apiKey, [], none⟩

/-- `GET /videos?query` (line 465). -/
def listRequest (apiKey query : String) : Request :=
  ⟨"GET", SORA_API_BASE ++ "/videos?" ++ query, apiKey, [], none⟩

/-- `GET /videos/:id/content` (line 638). -/
def contentRequest (apiKey id : String) : Request :=
  ⟨"GET", SORA_API_BASE ++ "/videos/" ++ id ++ "/content", apiKey, [], none⟩

/-- `DELETE /videos/:id` (line 709). -/
def deleteRequest (apiKey id : String) : Request :=
  ⟨"DELETE", SORA_API_BASE ++ "/videos/" ++ id, apiKey, [], none⟩

/-- The shared fetch/check/catch pattern of every handler: issue the request;
on a non-ok response the handler throws
`<errPre><status> - <body>` which the surrounding catch turns into
the error envelope; otherwise continue with the response.  `errPre` is the
full message prefix, outer catch prefix included. -/
def simpleFetch (errPre : String) (req : Request) (oracle : Oracle)
    (onSuccess : HttpResponse → ResultEnvelope) : ResultEnvelope × List Request :=
  if responseOk (oracle req) then (onSuccess (oracle req), [req])
  else (⟨errPre ++ toString (oracle req).status ++ " - " ++ (oracle req).body,
         [], true⟩, [req])

/-! ## The seven tool handlers (source lines 211-753) -/

/-- Arguments of the create-video tool (lines 218-227).  `inputRef` models
`input_reference` together with the existing file the path resolves to. -/
structure CreateArgs where
  prompt : String
  model : String
  seconds : String
  orientation : Option Orientation
  size : Option String
  inputRef : Option RefFile

/-- Tool 1, create-video (lines 213-338): resolve the size, prepare the
optional reference media, post the multipart form, normalize the
response.  A preparation failure is rethrown as
`Failed to process input_reference file: ...` (line 297) and caught by the
outer handler (lines 325-336) before any request is issued. -/
def createPrep (args : CreateArgs) (finalSize : String) :
    Except String (Option (Blob × String × String)) :=
  match args.inputRef with
  | none => .ok none
  | some f =>
    match prepareInputReference f finalSize with
    | .ok b => .ok (some b)
    | .error e => .error ("Failed to process input_reference file: " ++ e)

def createVideo (apiKey : String) (args : CreateArgs) (oracle : Oracle) :
    ResultEnvelope × List Request :=
  match createPrep args (getVideoSize args.orientation args.size) with
  | .error e => (⟨"Error creating video: " ++ e, [], true⟩, [])
  | .ok attached =>
    simpleFetch "Error creating video: Sora API error: "
      (videosCreateRequest apiKey
        [("model", args.model), ("prompt", args.prompt),
         ("seconds", args.seconds), ("size", getVideoSize args.orientation args.size)]
        attached) oracle
      (fun r => ⟨jsonStringify r.json, r.json, false⟩)

/-- Tool 2, remix-video (lines 341-392). -/
def remixVideo (apiKey video_id prompt : String) (oracle : Oracle) :
    ResultEnvelope × List Request :=
  simpleFetch "Error remixing video: Sora API error: "
    (remixRequest apiKey video_id prompt) oracle
    (fun r => ⟨jsonStringify r.json, r.json, false⟩)

/-- Tool 3, get-video-status (lines 395-443). -/
def getVideoStatus (apiKey video_id : String) (oracle : Oracle) :
    ResultEnvelope × List Request :=
  simpleFetch "Error getting video status: Sora API error: "
    (statusRequest apiKey video_id) oracle
    (fun r => ⟨jsonStringify r.json, r.json, false⟩)

/-- Query string built by the list handler (lines 460-463); URL-encoding of
values is not modelled (no claim depends on it).  A JS truthiness check
guards `after`. -/
def listQuery (limit : Int) (after : Option String) (order : String) : String :=
  "limit=" ++ toString limit ++
  (match after with
   | some a => if a ≠ "" then "&after=" ++ a else ""
   | none => "") ++
  "&order=" ++ order

/-- Tool 4, list-videos (lines 446-501). -/
def listVideos (apiKey : String) (limit : Int) (after : Option String)
    (order : String) (oracle : Oracle) : ResultEnvelope × List Request :=
  simpleFetch "Error listing videos: Sora API error: "
    (listRequest apiKey (listQuery limit after order)) oracle
    (fun r => ⟨jsonStringify r.json, r.json, false⟩)

/-- The `?variant=` query of the download URL (line 552), with JS truthiness
on the optional argument. -/
def variantParams : Option String → String
  | some v => if v ≠ "" then "?variant=" ++ v else ""
  | none => ""

/-- The curl command constructed by the download handler (lines 552-555). -/
def curlCommandFor (apiKey video_id : String) (variant : Option String) : String :=
  "curl -H \"Authorization: Bearer " ++ apiKey ++ "\" \"" ++
    (SORA_API_BASE ++ "/videos/" ++ video_id ++ "/content" ++ variantParams variant) ++
    "\" -o \"" ++ video_id ++ ".mp4\""

/-- Tool 5, download-video (lines 504-587): one status request; branch on
`status == completed`; never fetches the content endpoint. -/
def downloadVideo (apiKey video_id : String) (variant : Option String)
    (oracle : Oracle) : ResultEnvelope × List Request :=
  simpleFetch "Error preparing video download: Sora API error: "
    (statusRequest apiKey video_id) oracle
    (fun r =>
      let st := r.json.lookup "status"
      if st = some (JVal.str "completed") then
        let curlCommand := curlCommandFor apiKey video_id variant
        let output : JObj :=
          [("video_id", .str video_id), ("status", .str "completed"),
           ("message", .str "Video is ready for download! Use the curl command below to download it."),
           ("download_instructions", .str "The video requires authentication. Use the provided curl command or add Authorization header with your API key."),
           ("curl_command", .str curlCommand)]
        ⟨"Video " ++ video_id ++
           " is ready for download!\n\nTo download the video, run this command in your terminal:\n\n" ++
           curlCommand ++ "\n\nThis will save the video as \"" ++ video_id ++
           ".mp4\" in your current directory.",
         output, false⟩
      else
        let output : JObj :=
          [("video_id", .str video_id), ("status", (st.getD JVal.null)),
           ("message", .str ("Video is not ready yet. Current status: " ++ displayJVal st)),
           ("download_instructions", .str "Video is not ready for download yet."),
           ("curl_command", .str "")]
        ⟨jsonStringify output, output, false⟩)

/-- Tool 6, save-video (lines 590-694): status request; if not completed,
return the not-ready envelope without touching the content endpoint;
otherwise fetch the content and write it to
`saveDir/saveFilename` (the filesystem write itself is not modelled beyond
the reported path; `path.resolve`/`path.join` are modelled as identity and
`/`-joining).  JS `||` defaulting makes empty-string arguments fall back
to the defaults. -/
def saveVideo (apiKey downloadDir video_id : String)
    (output_path fname : Option String) (oracle : Oracle) :
    ResultEnvelope × List Request :=
  let req1 := statusRequest apiKey video_id
  let r1 := oracle req1
  if responseOk r1 then
    let st := r1.json.lookup "status"
    if st = some (JVal.str "completed") then
      let saveDir := match output_path with
        | some p => if p ≠ "" then p else downloadDir
        | none => downloadDir
      let saveFilename := match fname with
        | some f => if f ≠ "" then f else video_id ++ ".mp4"
        | none => video_id ++ ".mp4"
      let fullPath := saveDir ++ "/" ++ saveFilename
      let res2 := simpleFetch "Error saving video: Failed to download video: "
        (contentRequest apiKey video_id) oracle
        (fun _r2 =>
          let output : JObj :=
            [("video_id", .str video_id), ("status", .str "saved"),
             ("file_path", .str fullPath),
             ("message", .str ("Video saved successfully to " ++ fullPath))]
          ⟨"✅ Video downloaded successfully!\n\nSaved to: " ++ fullPath ++
             "\n\nYou can now open and watch your video!",
           output, false⟩)
      (res2.1, req1 :: res2.2)
    else
      let output : JObj :=
        [("video_id", .str video_id), ("status", (st.getD JVal.null)),
         ("file_path", .str ""),
         ("message", .str ("Video is not ready yet. Current status: " ++ displayJVal st))]
      (⟨jsonStringify output, output, false⟩, [req1])
  else
    (⟨"Error saving video: Sora API error: " ++ toString r1.status ++ " - " ++ r1.body,
      [], true⟩, [req1])

/-- Tool 7, delete-video (lines 697-752): on success the output object is the
literal `id, deleted, message` fields with the remote JSON spread last
(lines 723-728), so remote fields override the constructed ones. -/
def deleteVideo (apiKey video_id : String) (oracle : Oracle) :
    ResultEnvelope × List Request :=
  simpleFetch "Error deleting video: Sora API error: "
    (deleteRequest apiKey video_id) oracle
    (fun r =>
      let output := spreadAfter
        [("id", .str video_id), ("deleted", .bool true),
         ("message", .str ("Successfully deleted video " ++ video_id))]
        r.json
      ⟨jsonStringify output, output, false⟩)

/-- The seven tool invocations. -/
inductive ToolCall where
  | createV (args : CreateArgs)
  | remixV (video_id prompt : String)
  | statusV (video_id : String)
  | listV (limit : Int) (after : Option String) (order : String)
  | downloadV (video_id : String) (variant : Option String)
  | saveV (video_id : String) (output_path fname : Option String)
  | deleteV (video_id : String)

/-- Dispatch of one tool invocation against the remote oracle; returns the
envelope and the requests issued, in order. -/
def runTool (apiKey downloadDir : String) (oracle : Oracle) :
    ToolCall → ResultEnvelope × List Request
  | .createV args => createVideo apiKey args oracle
  | .remixV id prompt => remixVideo apiKey id prompt oracle
  | .statusV id => getVideoStatus apiKey id oracle
  | .listV limit after order => listVideos apiKey limit after order oracle
  | .downloadV id variant => downloadVideo apiKey id variant oracle
  | .saveV id out fn => saveVideo apiKey downloadDir id out fn oracle
  | .deleteV id => deleteVideo apiKey id oracle

/-- Substring containment, used to state that error texts carry the status
code and body, and that the curl command carries the id and credential. -/
def containsStr (s t : String) : Prop :=
  ∃ a b, s = a ++ t ++ b

/-! ## Helper lemmas -/

theorem containsStr_self (t : String) : containsStr t t :=
  ⟨"", "", by rw [String.empty_append, String.append_empty]⟩

theorem containsStr_appL {s t : String} (u : String) (h : containsStr s t) :
    containsStr (s ++ u) t := by
  obtain ⟨a, b, rfl⟩ := h
  exact ⟨a, b ++ u, by simp [String.append_assoc]⟩

theorem containsStr_appR {s t : String} (u : String) (h : containsStr s t) :
    containsStr (u ++ s) t := by
  obtain ⟨a, b, rfl⟩ := h
  exact ⟨u ++ a, b, by simp [String.append_assoc]⟩

/-- Both pieces of an error text of the shape `p ++ status ++ m ++ body` are
contained in it. -/
theorem contains_both (p s m b : String) :
    containsStr (p ++ s ++ m ++ b) s ∧ containsStr (p ++ s ++ m ++ b) b :=
  ⟨containsStr_appL b (containsStr_appL m (containsStr_appR p (containsStr_self s))),
   containsStr_appR (p ++ s ++ m) (containsStr_self b)⟩

theorem lookup_append_some {α β : Type} [BEq α] {l1 : List (α × β)}
    (l2 : List (α × β)) {k : α} {v : β} (h : l1.lookup k = some v) :
    (l1 ++ l2).lookup k = some v := by
  induction l1 with
  | nil => simp [List.lookup] at h
  | cons p t ih =>
    rw [List.cons_append]
    rw [List.lookup] at h ⊢
    cases hk : (k == p.1)
    · simp only [hk] at h ⊢
      exact ih h
    · simp only [hk] at h ⊢
      exact h

theorem lookup_append_none {α β : Type} [BEq α] {l1 : List (α × β)}
    (l2 : List (α × β)) {k : α} (h : l1.lookup k = none) :
    (l1 ++ l2).lookup k = l2.lookup k := by
  induction l1 with
  | nil => rw [List.nil_append]
  | cons p t ih =>
    rw [List.cons_append]
    rw [List.lookup] at h ⊢
    cases hk : (k == p.1)
    · simp only [hk] at h ⊢
      exact ih h
    · simp only [hk] at h
      exact absurd h (by simp)

/-- The trace of `simpleFetch` is always the single request it was given. -/
theorem simpleFetch_trace (errPre : String) (req : Request) (oracle : Oracle)
    (onSuccess : HttpResponse → ResultEnvelope) :
    (simpleFetch errPre req oracle onSuccess).2 = [req] := by
  unfold simpleFetch
  split <;> rfl

/-- If the response to a request in a `simpleFetch` trace is non-ok, the
result is the error envelope carrying the status code and body. -/
theorem simpleFetch_bad (errPre : String) (req0 : Request) (oracle : Oracle)
    (onSuccess : HttpResponse → ResultEnvelope) (req : Request)
    (hmem : req ∈ (simpleFetch errPre req0 oracle onSuccess).2)
    (hbad : responseOk (oracle req) = false) :
    (simpleFetch errPre req0 oracle onSuccess).1.isError = true ∧
    containsStr (simpleFetch errPre req0 oracle onSuccess).1.text
      (toString (oracle req).status) ∧
    containsStr (simpleFetch errPre req0 oracle onSuccess).1.text (oracle req).body := by
  rw [simpleFetch_trace, List.mem_singleton] at hmem
  subst hmem
  unfold simpleFetch
  simp only [hbad, Bool.false_eq_true, if_false]
  exact ⟨trivial, (contains_both _ _ _ _).1, (contains_both _ _ _ _).2⟩

/-- The positivity guard of `validateSize`: an `ok` result has positive
components. -/
theorem validateSize_pos {s : String} {W H : Int}
    (h : validateSize s = Except.ok (W, H)) : 0 < W ∧ 0 < H := by
  unfold validateSize at h
  split at h
  · exact absurd h (by simp)
  · split at h
    · split at h
      · exact absurd h (by simp)
      · rename_i hcond
        rw [Except.ok.injEq, Prod.mk.injEq] at h
        obtain ⟨rfl, rfl⟩ := h
        push_neg at hcond
        exact hcond
    · exact absurd h (by simp)

theorem roundHalf_ge {a b c : Nat} (hb : 0 < b) (h : c * b ≤ a) :
    c ≤ roundHalf a b := by
  unfold roundHalf
  rw [Nat.le_div_iff_mul_le (by omega : 0 < 2 * b)]
  calc c * (2 * b) = 2 * (c * b) := by ring
    _ ≤ 2 * a := Nat.mul_le_mul_left 2 h
    _ ≤ 2 * a + b := Nat.le_add_right _ _

/-- Cover-fit resize followed by the center crop yields exactly the target
dimensions whenever input and target dimensions are positive. -/
theorem sharpCoverResize_dims (img : Image) (W H : Nat)
    (hw : 0 < img.width) (hh : 0 < img.height) :
    sharpCoverResize img W H = ⟨W, H⟩ := by
  unfold sharpCoverResize coverScaled
  by_cases hc : H * img.width ≤ W * img.height
  · have hcomm : H * img.width ≤ img.height * W := by
      calc H * img.width ≤ W * img.height := hc
        _ = img.height * W := Nat.mul_comm _ _
    have hsh : H ≤ roundHalf (img.height * W) img.width := roundHalf_ge hw hcomm
    rw [if_pos hc]
    simp [min_eq_left hsh]
  · have hlt : W * img.height < H * img.width := Nat.lt_of_not_le hc
    have hcomm : W * img.height ≤ img.width * H := by
      calc W * img.height ≤ H * img.width := Nat.le_of_lt hlt
        _ = img.width * H := Nat.mul_comm _ _
    have hsw : W ≤ roundHalf (img.width * H) img.height := roundHalf_ge hh hcomm
    rw [if_neg hc]
    simp [min_eq_left hsw]

/-- The status and content endpoints of one id are distinct requests. -/
theorem statusRequest_ne_contentRequest (apiKey id : String) :
    statusRequest apiKey id ≠ contentRequest apiKey id := by
  intro h
  have hurl : (statusRequest apiKey id).url = (contentRequest apiKey id).url :=
    congrArg Request.url h
  unfold statusRequest contentRequest at hurl
  have hlen : (SORA_API_BASE ++ "/videos/" ++ id).length =
      (SORA_API_BASE ++ "/videos/" ++ id ++ "/content").length :=
    congrArg String.length hurl
  have h8 : ("/content" : String).length = 8 := rfl
  simp only [String.length_append, h8] at hlen
  omega

/-! ## Claim theorems -/

/-- C9: for every input_reference filename, the detected MIME type is
determined by the lowercase file extension via the fixed table
png→image/png, webp→image/webp, jpg/jpeg→image/jpeg, mp4→video/mp4,
mov→video/quicktime, webm→video/webm, with image/jpeg as the result for
every extension not in the table. -/
theorem C9_mime_extension_table (filename : String) :
    mimeFromFilename filename = mimeSpec filename := by
  unfold mimeFromFilename mimeSpec
  generalize extOf filename = e
  by_cases h1 : e = "png"
  · subst h1; decide
  by_cases h2 : e = "webp"
  · subst h2; decide
  by_cases h3 : e = "jpg"
  · subst h3; decide
  by_cases h4 : e = "jpeg"
  · subst h4; decide
  by_cases h5 : e = "mp4"
  · subst h5; decide
  by_cases h6 : e = "mov"
  · subst h6; decide
  by_cases h7 : e = "webm"
  · subst h7; decide
  have b1 := beq_false_of_ne h1
  have b2 := beq_false_of_ne h2
  have b3 := beq_false_of_ne h3
  have b4 := beq_false_of_ne h4
  have b5 := beq_false_of_ne h5
  have b6 := beq_false_of_ne h6
  have b7 := beq_false_of_ne h7
  unfold mimeFromExt mimeTable
  rw [if_neg h1, if_neg h2, if_neg (by tauto : ¬(e = "jpg" ∨ e = "jpeg")),
    if_neg h5, if_neg h6, if_neg h7]
  simp [List.lookup, b1, b2, b3, b4, b5, b6, b7]

/-- C1 counterexample: the claim says a supplied size string is returned
verbatim when orientation is absent, but the empty string (a supplied
size) resolves to the vertical default instead. -/
theorem C1_counterexample :
    getVideoSize none (some "") = "720x1280" ∧ ("720x1280" : String) ≠ "" :=
  ⟨rfl, by decide⟩

/-- C1 (amended): orientation vertical always resolves to 720x1280 and
landscape to 1280x720 regardless of any size argument; with orientation
absent, a NONEMPTY size string is returned verbatim; with orientation
absent and the size absent or empty, the vertical default 720x1280 is
returned. -/
theorem C1_size_resolver :
    (∀ sz, getVideoSize (some .vertical) sz = "720x1280") ∧
    (∀ sz, getVideoSize (some .landscape) sz = "1280x720") ∧
    (∀ s, s ≠ "" → getVideoSize none (some s) = s) ∧
    getVideoSize none none = "720x1280" ∧
    getVideoSize none (some "") = "720x1280" := by
  refine ⟨fun _ => rfl, fun _ => rfl, fun s hs => ?_, rfl, rfl⟩
  simp only [getVideoSize]
  rw [if_pos hs]

/-- Witness for C1: a concrete nonempty custom size is returned verbatim. -/
theorem C1_witness :
    ("640x480" : String) ≠ "" ∧ getVideoSize none (some "640x480") = "640x480" :=
  ⟨by decide, C1_size_resolver.2.2.1 "640x480" (by decide)⟩

/-- C10: with orientation absent and size equal to the empty string, the
resolved size is the vertical default 720x1280 — the empty string is
treated as an absent size, not passed through verbatim. -/
theorem C10_empty_size_default :
    getVideoSize none (some "") = "720x1280" ∧ getVideoSize none (some "") ≠ "" :=
  ⟨rfl, by decide⟩

/-- C2 counterexample: `"720ax1280"` does not split into two positive integer
tokens (the first token is `"720a"`), yet size validation accepts it
(JS `parseInt` keeps the numeric prefix) and a create-video invocation
with an input_reference and this resolved size succeeds rather than
failing with a validation error. -/
theorem C2_counterexample :
    (jsSplit "720ax1280" 'x').length = 2 ∧
    isPosIntToken ((jsSplit "720ax1280" 'x').getD 0 "") = false ∧
    validateSize "720ax1280" = Except.ok (720, 1280) ∧
    (createVideo "key"
      ⟨"a cat", "sora-2", "4", none, some "720ax1280",
        some ⟨"ref.png", [], some ⟨100, 100⟩⟩⟩
      (fun _ => ⟨200, "", []⟩)).1.isError = false :=
  ⟨rfl, rfl, rfl, rfl⟩

/-- C2 (amended): with an input_reference supplied, media preparation fails
with the validation error exactly when the resolved size string does not
split on 'x' into exactly two tokens whose JS `parseInt` values exist and
are positive; the longest leading decimal-digit run of a token is what is
parsed, so a non-integer token with a positive numeric prefix (such as
`"720a"`) is accepted.  When validation fails, the failure is produced
before any resize and before any request, and is returned as the error
envelope. -/
theorem C2_size_validation (s : String) :
    ((∃ W H, validateSize s = Except.ok (W, H)) ↔
      ((jsSplit s 'x').length = 2 ∧
       (∃ W, jsParseInt ((jsSplit s 'x').getD 0 "") = some W ∧ 0 < W) ∧
       (∃ H, jsParseInt ((jsSplit s 'x').getD 1 "") = some H ∧ 0 < H))) ∧
    (∀ e f apiKey prompt model seconds oracle,
      s ≠ "" → validateSize s = Except.error e →
      prepareInputReference f s = Except.error e ∧
      (createVideo apiKey ⟨prompt, model, seconds, none, some s, some f⟩ oracle).1 =
        ⟨"Error creating video: " ++ ("Failed to process input_reference file: " ++ e),
         [], true⟩ ∧
      (createVideo apiKey ⟨prompt, model, seconds, none, some s, some f⟩ oracle).2 = []) := by
  constructor
  · constructor
    · rintro ⟨W, H, hok⟩
      unfold validateSize at hok
      split at hok
      · exact absurd hok (by simp)
      · rename_i hlen
        rw [not_not] at hlen
        split at hok
        · rename_i tw th htw hth
          split at hok
          · exact absurd hok (by simp)
          · rename_i hcond
            push_neg at hcond
            rw [Except.ok.injEq, Prod.mk.injEq] at hok
            obtain ⟨rfl, rfl⟩ := hok
            exact ⟨hlen, ⟨_, htw, hcond.1⟩, ⟨_, hth, hcond.2⟩⟩
        · exact absurd hok (by simp)
    · rintro ⟨hlen, ⟨W, hW, hWpos⟩, ⟨H, hH, hHpos⟩⟩
      refine ⟨W, H, ?_⟩
      have hcond : ¬(W ≤ 0 ∨ H ≤ 0) := by push_neg; exact ⟨hWpos, hHpos⟩
      unfold validateSize
      rw [if_neg (by omega : ¬((jsSplit s 'x').length ≠ 2)), hW, hH]
      simp [hcond]
  · intro e f apiKey prompt model seconds oracle hs he
    have hfs : getVideoSize none (some s) = s := by
      simp only [getVideoSize]
      rw [if_pos hs]
    have hprep : prepareInputReference f s = Except.error e := by
      unfold prepareInputReference
      rw [he]
    have hcv : createVideo apiKey ⟨prompt, model, seconds, none, some s, some f⟩ oracle =
        (⟨"Error creating video: " ++ ("Failed to process input_reference file: " ++ e),
          [], true⟩, []) := by
      unfold createVideo createPrep
      simp only [hfs, hprep]
    exact ⟨hprep, by rw [hcv], by rw [hcv]⟩

/-- Witness for C2: the size string `"70x"` (second token empty, `parseInt`
NaN) makes a create-video invocation with an input_reference fail with
the validation error envelope, issuing no request. -/
theorem C2_witness :
    validateSize "70x" =
      Except.error "Invalid size dimensions: 70x. Width and height must be positive numbers." ∧
    (createVideo "key"
      ⟨"p", "sora-2", "4", none, some "70x", some ⟨"ref.png", [], some ⟨10, 10⟩⟩⟩
      (fun _ => ⟨200, "", []⟩)).1.isError = true ∧
    (createVideo "key"
      ⟨"p", "sora-2", "4", none, some "70x", some ⟨"ref.png", [], some ⟨10, 10⟩⟩⟩
      (fun _ => ⟨200, "", []⟩)).2 = [] := by
  have h := (C2_size_validation "70x").2
    "Invalid size dimensions: 70x. Width and height must be positive numbers."
    ⟨"ref.png", [], some ⟨10, 10⟩⟩ "key" "p" "sora-2" "4"
    (fun _ => ⟨200, "", []⟩) (by decide) rfl
  exact ⟨rfl, by rw [h.2.1], h.2.2⟩

/-- C3: for every create-video invocation whose input_reference resolves to
an image MIME kind, the prepared blob attached to the outbound form is
the cover-fit/center-crop resize of the decoded image and has dimensions
exactly the parsed target width and height, for any positive input image
dimensions. -/
theorem C3_image_cover_resize (f : RefFile) (img : Image) (s : String) (W H : Int)
    (prompt model seconds : String) (orientation : Option Orientation)
    (size : Option String) (apiKey : String) (oracle : Oracle)
    (hdec : f.decoded = some img) (hw : 0 < img.width) (hh : 0 < img.height)
    (himg : startsWithStr (mimeFromFilename f.name) "image/" = true)
    (hv : validateSize s = Except.ok (W, H))
    (hsize : getVideoSize orientation size = s) :
    prepareInputReference f s =
      Except.ok (Blob.imageBuf ⟨W.toNat, H.toNat⟩, mimeFromFilename f.name, f.name) ∧
    (createVideo apiKey ⟨prompt, model, seconds, orientation, size, some f⟩ oracle).2 =
      [videosCreateRequest apiKey
        [("model", model), ("prompt", prompt), ("seconds", seconds), ("size", s)]
        (some (Blob.imageBuf ⟨W.toNat, H.toNat⟩, mimeFromFilename f.name, f.name))] := by
  have hsharp := sharpCoverResize_dims img W.toNat H.toNat hw hh
  have hprep : prepareInputReference f s =
      Except.ok (Blob.imageBuf ⟨W.toNat, H.toNat⟩, mimeFromFilename f.name, f.name) := by
    unfold prepareInputReference
    rw [hv]
    simp [himg, hdec, hsharp]
  refine ⟨hprep, ?_⟩
  unfold createVideo createPrep
  simp only [hsize, hprep]
  rw [simpleFetch_trace]

/-- Witness for C3: a 100x300 image referenced by a create-video invocation
targeting 720x1280 is attached as a 720x1280 buffer. -/
theorem C3_witness :
    prepareInputReference ⟨"photo.jpg", [7], some ⟨100, 300⟩⟩ "720x1280" =
      Except.ok (Blob.imageBuf ⟨720, 1280⟩, "image/jpeg", "photo.jpg") ∧
    (createVideo "key"
      ⟨"a cat", "sora-2", "4", none, some "720x1280",
        some ⟨"photo.jpg", [7], some ⟨100, 300⟩⟩⟩
      (fun _ => ⟨200, "", []⟩)).2 =
      [videosCreateRequest "key"
        [("model", "sora-2"), ("prompt", "a cat"), ("seconds", "4"), ("size", "720x1280")]
        (some (Blob.imageBuf ⟨720, 1280⟩, "image/jpeg", "photo.jpg"))] :=
  C3_image_cover_resize ⟨"photo.jpg", [7], some ⟨100, 300⟩⟩ ⟨100, 300⟩ "720x1280"
    720 1280 "a cat" "sora-2" "4" none (some "720x1280") "key"
    (fun _ => ⟨200, "", []⟩) rfl (by decide) (by decide) (by decide) rfl
    (by decide)

/-- C8: for every create-video invocation whose input_reference resolves to a
video MIME kind (mp4, mov, webm), the blob attached to the outbound
request is the file's bytes, byte-for-byte, with no inspection of the
video's dimensions. -/
theorem C8_video_passthrough (f : RefFile) (s : String) (W H : Int)
    (prompt model seconds : String) (orientation : Option Orientation)
    (size : Option String) (apiKey : String) (oracle : Oracle)
    (hv : validateSize s = Except.ok (W, H))
    (hm : mimeFromFilename f.name = "video/mp4" ∨
          mimeFromFilename f.name = "video/quicktime" ∨
          mimeFromFilename f.name = "video/webm")
    (hsize : getVideoSize orientation size = s) :
    prepareInputReference f s =
      Except.ok (Blob.rawBuf f.bytes, mimeFromFilename f.name, f.name) ∧
    (createVideo apiKey ⟨prompt, model, seconds, orientation, size, some f⟩ oracle).2 =
      [videosCreateRequest apiKey
        [("model", model), ("prompt", prompt), ("seconds", seconds), ("size", s)]
        (some (Blob.rawBuf f.bytes, mimeFromFilename f.name, f.name))] := by
  have himg : startsWithStr (mimeFromFilename f.name) "image/" = false := by
    rcases hm with h | h | h <;> rw [h] <;> decide
  have hprep : prepareInputReference f s =
      Except.ok (Blob.rawBuf f.bytes, mimeFromFilename f.name, f.name) := by
    unfold prepareInputReference
    rw [hv]
    simp [himg]
  refine ⟨hprep, ?_⟩
  unfold createVideo createPrep
  simp only [hsize, hprep]
  rw [simpleFetch_trace]

/-- Witness for C8: a referenced mp4 file's bytes are attached unchanged to
the outbound create request. -/
theorem C8_witness :
    prepareInputReference ⟨"clip.mp4", [9, 8, 7], none⟩ "720x1280" =
      Except.ok (Blob.rawBuf [9, 8, 7], "video/mp4", "clip.mp4") ∧
    (createVideo "key"
      ⟨"p", "sora-2", "4", none, some "720x1280", some ⟨"clip.mp4", [9, 8, 7], none⟩⟩
      (fun _ => ⟨200, "", []⟩)).2 =
      [videosCreateRequest "key"
        [("model", "sora-2"), ("prompt", "p"), ("seconds", "4"), ("size", "720x1280")]
        (some (Blob.rawBuf [9, 8, 7], "video/mp4", "clip.mp4"))] :=
  C8_video_passthrough ⟨"clip.mp4", [9, 8, 7], none⟩ "720x1280" 720 1280
    "p" "sora-2" "4" none (some "720x1280") "key" (fun _ => ⟨200, "", []⟩)
    rfl (Or.inl (by decide)) (by decide)

/-- C4: for every one of the seven operations, whenever a request it issued
received a non-2xx response, the operation returns an error envelope
whose text contains the HTTP status code and the response body text. -/
theorem C4_error_envelope (apiKey downloadDir : String) (oracle : Oracle)
    (call : ToolCall) (req : Request)
    (hmem : req ∈ (runTool apiKey downloadDir oracle call).2)
    (hbad : responseOk (oracle req) = false) :
    (runTool apiKey downloadDir oracle call).1.isError = true ∧
    containsStr (runTool apiKey downloadDir oracle call).1.text
      (toString (oracle req).status) ∧
    containsStr (runTool apiKey downloadDir oracle call).1.text (oracle req).body := by
  cases call with
  | createV args =>
    simp only [runTool] at hmem ⊢
    unfold createVideo at hmem ⊢
    cases hp : createPrep args (getVideoSize args.orientation args.size) with
    | error e =>
      rw [hp] at hmem
      exact absurd hmem (by simp)
    | ok attached =>
      rw [hp] at hmem
      exact simpleFetch_bad _ _ oracle _ req hmem hbad
  | remixV id prompt =>
    simp only [runTool] at hmem ⊢
    unfold remixVideo at hmem ⊢
    exact simpleFetch_bad _ _ oracle _ req hmem hbad
  | statusV id =>
    simp only [runTool] at hmem ⊢
    unfold getVideoStatus at hmem ⊢
    exact simpleFetch_bad _ _ oracle _ req hmem hbad
  | listV limit after order =>
    simp only [runTool] at hmem ⊢
    unfold listVideos at hmem ⊢
    exact simpleFetch_bad _ _ oracle _ req hmem hbad
  | downloadV id variant =>
    simp only [runTool] at hmem ⊢
    unfold downloadVideo at hmem ⊢
    exact simpleFetch_bad _ _ oracle _ req hmem hbad
  | saveV id out fn =>
    simp only [runTool] at hmem ⊢
    simp only [saveVideo] at hmem ⊢
    by_cases h1 : responseOk (oracle (statusRequest apiKey id)) = true
    · rw [if_pos h1] at hmem ⊢
      by_cases h2 : (oracle (statusRequest apiKey id)).json.lookup "status" =
          some (JVal.str "completed")
      · rw [if_pos h2] at hmem ⊢
        simp only [List.mem_cons] at hmem
        rcases hmem with rfl | hmem
        · rw [h1] at hbad
          exact absurd hbad (by simp)
        · exact simpleFetch_bad _ _ oracle _ req hmem hbad
      · rw [if_neg h2] at hmem
        rw [List.mem_singleton] at hmem
        subst hmem
        rw [h1] at hbad
        exact absurd hbad (by simp)
    · rw [if_neg h1] at hmem ⊢
      rw [List.mem_singleton] at hmem
      subst hmem
      exact ⟨rfl, (contains_both _ _ _ _).1, (contains_both _ _ _ _).2⟩
  | deleteV id =>
    simp only [runTool] at hmem ⊢
    unfold deleteVideo at hmem ⊢
    exact simpleFetch_bad _ _ oracle _ req hmem hbad

/-- Witness for C4: a 404 response to get-video-status yields an error
envelope whose text contains the status code and the body. -/
theorem C4_witness :
    (runTool "key" "dl" (fun _ => ⟨404, "Not Found", []⟩)
      (ToolCall.statusV "abc")).1.isError = true ∧
    containsStr (runTool "key" "dl" (fun _ => ⟨404, "Not Found", []⟩)
      (ToolCall.statusV "abc")).1.text (toString (404 : Nat)) ∧
    containsStr (runTool "key" "dl" (fun _ => ⟨404, "Not Found", []⟩)
      (ToolCall.statusV "abc")).1.text "Not Found" :=
  C4_error_envelope "key" "dl" (fun _ => ⟨404, "Not Found", []⟩)
    (ToolCall.statusV "abc") (statusRequest "key" "abc") (by decide) (by decide)

/-- C5: when the status query of save-video returns an ok response whose
status is not "completed", the success envelope carries that status and
an empty file_path, and the content endpoint is never requested. -/
theorem C5_save_not_ready (apiKey downloadDir video_id : String)
    (output_path fname : Option String) (oracle : Oracle) (s : String)
    (hok : responseOk (oracle (statusRequest apiKey video_id)) = true)
    (hst : (oracle (statusRequest apiKey video_id)).json.lookup "status" =
      some (JVal.str s))
    (hne : s ≠ "completed") :
    (saveVideo apiKey downloadDir video_id output_path fname oracle).1.isError = false ∧
    (saveVideo apiKey downloadDir video_id output_path fname oracle).1.structured.lookup
      "status" = some (JVal.str s) ∧
    (saveVideo apiKey downloadDir video_id output_path fname oracle).1.structured.lookup
      "file_path" = some (JVal.str "") ∧
    (saveVideo apiKey downloadDir video_id output_path fname oracle).2 =
      [statusRequest apiKey video_id] ∧
    contentRequest apiKey video_id ∉
      (saveVideo apiKey downloadDir video_id output_path fname oracle).2 := by
  have hcond : ¬((oracle (statusRequest apiKey video_id)).json.lookup "status" =
      some (JVal.str "completed")) := by
    rw [hst]
    simp [hne]
  simp only [saveVideo]
  rw [if_pos hok, if_neg hcond, hst]
  refine ⟨rfl, rfl, rfl, rfl, ?_⟩
  rw [List.mem_singleton]
  exact fun h => statusRequest_ne_contentRequest apiKey video_id h.symm

/-- Witness for C5: a concrete in_progress status produces the not-ready
envelope and no content request. -/
theorem C5_witness :
    (saveVideo "key" "dl" "abc123" none none
      (fun _ => ⟨200, "", [("status", JVal.str "in_progress")]⟩)).1.structured.lookup
      "status" = some (JVal.str "in_progress") ∧
    (saveVideo "key" "dl" "abc123" none none
      (fun _ => ⟨200, "", [("status", JVal.str "in_progress")]⟩)).1.structured.lookup
      "file_path" = some (JVal.str "") ∧
    contentRequest "key" "abc123" ∉
      (saveVideo "key" "dl" "abc123" none none
        (fun _ => ⟨200, "", [("status", JVal.str "in_progress")]⟩)).2 := by
  have h := C5_save_not_ready "key" "dl" "abc123" none none
    (fun _ => ⟨200, "", [("status", JVal.str "in_progress")]⟩) "in_progress"
    (by decide) (by decide) (by decide)
  exact ⟨h.2.1, h.2.2.1, h.2.2.2.2⟩

/-- C6 counterexample: a 2xx delete response whose JSON contains
`deleted: false` yields an envelope whose `deleted` field is false —
the remote fields are spread after the locally constructed ones and
override `deleted: true`, so the claimed envelope contents fail. -/
theorem C6_counterexample :
    responseOk ((fun _ => ⟨200, "ok", [("deleted", JVal.bool false)]⟩ : Oracle)
      (deleteRequest "key" "xyz")) = true ∧
    (deleteVideo "key" "xyz"
      (fun _ => ⟨200, "ok", [("deleted", JVal.bool false)]⟩)).1.isError = false ∧
    (deleteVideo "key" "xyz"
      (fun _ => ⟨200, "ok", [("deleted", JVal.bool false)]⟩)).1.structured.lookup
      "deleted" = some (JVal.bool false) ∧
    some (JVal.bool false) ≠ some (JVal.bool true) :=
  ⟨rfl, rfl, rfl, by decide⟩

/-- C6 (amended): on a 2xx delete response the structured envelope is the
object `id, deleted:true, message` with the remote JSON's fields spread
last, so every remote field is present (and overrides a same-named local
field), while `id`, `deleted:true` and the success message are present
whenever the remote JSON lacks those keys. -/
theorem C6_delete_merge (apiKey video_id : String) (oracle : Oracle)
    (hok : responseOk (oracle (deleteRequest apiKey video_id)) = true) :
    (deleteVideo apiKey video_id oracle).1.isError = false ∧
    (∀ key v, (oracle (deleteRequest apiKey video_id)).json.lookup key = some v →
      (deleteVideo apiKey video_id oracle).1.structured.lookup key = some v) ∧
    ((oracle (deleteRequest apiKey video_id)).json.lookup "id" = none →
      (deleteVideo apiKey video_id oracle).1.structured.lookup "id" =
        some (JVal.str video_id)) ∧
    ((oracle (deleteRequest apiKey video_id)).json.lookup "deleted" = none →
      (deleteVideo apiKey video_id oracle).1.structured.lookup "deleted" =
        some (JVal.bool true)) ∧
    ((oracle (deleteRequest apiKey video_id)).json.lookup "message" = none →
      (deleteVideo apiKey video_id oracle).1.structured.lookup "message" =
        some (JVal.str ("Successfully deleted video " ++ video_id))) := by
  unfold deleteVideo simpleFetch
  rw [if_pos hok]
  simp only [spreadAfter]
  refine ⟨trivial, ?_, ?_, ?_, ?_⟩
  · intro key v h
    exact lookup_append_some _ h
  · intro h
    rw [lookup_append_none _ h]
    rfl
  · intro h
    rw [lookup_append_none _ h]
    rfl
  · intro h
    rw [lookup_append_none _ h]
    rfl

/-- Witness for C6: a remote body without the three keys keeps the local
fields, and its own field is carried over. -/
theorem C6_witness :
    (deleteVideo "key" "xyz"
      (fun _ => ⟨200, "", [("object", JVal.str "video")]⟩)).1.structured.lookup
      "deleted" = some (JVal.bool true) ∧
    (deleteVideo "key" "xyz"
      (fun _ => ⟨200, "", [("object", JVal.str "video")]⟩)).1.structured.lookup
      "object" = some (JVal.str "video") := by
  have h := C6_delete_merge "key" "xyz"
    (fun _ => ⟨200, "", [("object", JVal.str "video")]⟩) rfl
  exact ⟨h.2.2.2.1 rfl, h.2.1 "object" (JVal.str "video") rfl⟩

/-- C7: on a completed status the download envelope's curl command contains
the literal video id and the bearer credential; on a non-completed status
the envelope carries that status, the not-ready message and an empty
curl_command. -/
theorem C7_download_branches (apiKey video_id : String) (variant : Option String)
    (oracle : Oracle) (s : String)
    (hok : responseOk (oracle (statusRequest apiKey video_id)) = true)
    (hst : (oracle (statusRequest apiKey video_id)).json.lookup "status" =
      some (JVal.str s)) :
    (s = "completed" →
      (downloadVideo apiKey video_id variant oracle).1.structured.lookup
        "curl_command" = some (JVal.str (curlCommandFor apiKey video_id variant)) ∧
      containsStr (curlCommandFor apiKey video_id variant) video_id ∧
      containsStr (curlCommandFor apiKey video_id variant) apiKey) ∧
    (s ≠ "completed" →
      (downloadVideo apiKey video_id variant oracle).1.structured.lookup
        "status" = some (JVal.str s) ∧
      (downloadVideo apiKey video_id variant oracle).1.structured.lookup
        "curl_command" = some (JVal.str "") ∧
      (downloadVideo apiKey video_id variant oracle).1.structured.lookup
        "message" = some (JVal.str ("Video is not ready yet. Current status: " ++ s))) := by
  have hid : containsStr (curlCommandFor apiKey video_id variant) video_id := by
    unfold curlCommandFor
    exact containsStr_appL _ (containsStr_appR _ (containsStr_self video_id))
  have hkey : containsStr (curlCommandFor apiKey video_id variant) apiKey := by
    unfold curlCommandFor
    exact containsStr_appL _ (containsStr_appL _ (containsStr_appL _
      (containsStr_appL _ (containsStr_appL _
        (containsStr_appR _ (containsStr_self apiKey))))))
  unfold downloadVideo simpleFetch
  rw [if_pos hok]
  constructor
  · intro hcomp
    subst hcomp
    simp only []
    rw [if_pos hst]
    exact ⟨rfl, hid, hkey⟩
  · intro hne
    have hcond : ¬((oracle (statusRequest apiKey video_id)).json.lookup "status" =
        some (JVal.str "completed")) := by
      rw [hst]
      simp [hne]
    simp only []
    rw [if_neg hcond, hst]
    exact ⟨rfl, rfl, rfl⟩

/-- Witness for C7: both branches at concrete statuses. -/
theorem C7_witness :
    ((downloadVideo "key" "abc123" none
      (fun _ => ⟨200, "", [("status", JVal.str "completed")]⟩)).1.structured.lookup
      "curl_command" = some (JVal.str (curlCommandFor "key" "abc123" none)) ∧
     containsStr (curlCommandFor "key" "abc123" none) "abc123" ∧
     containsStr (curlCommandFor "key" "abc123" none) "key") ∧
    ((downloadVideo "key" "abc123" none
      (fun _ => ⟨200, "", [("status", JVal.str "in_progress")]⟩)).1.structured.lookup
      "curl_command" = some (JVal.str "") ∧
     (downloadVideo "key" "abc123" none
      (fun _ => ⟨200, "", [("status", JVal.str "in_progress")]⟩)).1.structured.lookup
      "status" = some (JVal.str "in_progress")) := by
  have h1 := C7_download_branches "key" "abc123" none
    (fun _ => ⟨200, "", [("status", JVal.str "completed")]⟩) "completed"
    (by decide) (by decide)
  have h2 := C7_download_branches "key" "abc123" none
    (fun _ => ⟨200, "", [("status", JVal.str "in_progress")]⟩) "in_progress"
    (by decide) (by decide)
  exact ⟨h1.1 rfl, (h2.2 (by decide)).2.1, (h2.2 (by decide)).1⟩

end SoraMcp
